import Mathlib

/-!
Verification of the retrieval-and-session subsystem of the Voosh RAG news
chatbot backend: a shallow embedding of the in-memory key/value store
(`src/backend/src/services/redis.js`, class `InMemoryStore`), the session
service (`SessionService`), the vector store
(`src/backend/src/services/vectorStore.js`), the embedding helpers
(`src/backend/src/services/embedding.js`), the Gemini generation wrappers
(`GeminiService`) and the RAG orchestration pipeline
(`src/backend/src/services/rag.js`), with theorems checking the
specification's claims against that embedding.

Modelling conventions:
* `Date.now()` is an explicit `now : Nat` parameter (milliseconds).
* JavaScript numbers holding embedding coordinates are modelled as `ℚ`;
  similarity scores (which pass through `Math.sqrt`) as `ℝ`.
* Asynchronous external calls (Jina embedding API, Gemini generation) are
  modelled by passing their outcome in as an explicit parameter.
* Store keys are tagged (`session:<id>` / `history:<id>`): the string
  prefixes used in the source exist exactly to keep the two namespaces
  disjoint, which the tagged type provides directly.
-/

namespace Voosh

/-! ## Key/value store state (redis.js, class InMemoryStore) -/

/-- A key of the store. `SessionService` uses `session:` + id and
`history:` + id; the prefixes make the two namespaces disjoint, which this
tagged type models directly. -/
inductive Key where
  | session (id : String)
  | history (id : String)
deriving DecidableEq

/-- The session record `{id, createdAt, messageCount}` stored (JSON
serialized) under a `session:` key. -/
structure SessionData where
  id : String
  createdAt : String
  messageCount : Nat
deriving DecidableEq

/-- A chat message `{id, role, content, timestamp}` appended (JSON
serialized) to a `history:` list. -/
structure Message where
  id : String
  role : String
  content : String
  timestamp : String
deriving DecidableEq

/-- A stored value: a raw string, a session record (modelling the nonempty
JSON string `JSON.stringify(sessionData)`), or a list of messages
(modelling the array of strings `JSON.stringify(message)`; serialization
is a bijection, so the structured values stand for their encodings). -/
inductive Val where
  | vstr (s : String)
  | vsess (d : SessionData)
  | vlist (l : List Message)
deriving DecidableEq

/-- Model of `InMemoryStore`: `this.store` (key → value) and `this.ttls`
(key → absolute expiry instant in ms). -/
structure KV where
  store : Key → Option Val
  ttls : Key → Option Nat

/-- Pointwise map update (`Map.set` / `Map.delete` when `v = none`). -/
def fupd {α : Type} (f : Key → Option α) (k : Key) (v : Option α) : Key → Option α :=
  fun q => if q = k then v else f q

@[simp] theorem fupd_same {α : Type} (f : Key → Option α) (k : Key) (v : Option α) :
    fupd f k v k = v := if_pos rfl

theorem fupd_ne {α : Type} (f : Key → Option α) (k : Key) (v : Option α)
    {q : Key} (h : q ≠ k) : fupd f k v q = f q := if_neg h

/-- The test `expiry && Date.now() > expiry` of `_checkExpiry`: an absent
expiry is `undefined` (falsy), and the instant `0` is itself falsy in
JavaScript, so it never triggers eviction. -/
def isExpired (now : Nat) : Option Nat → Bool
  | none => false
  | some t => t != 0 && decide (t < now)

/-- Model of `_checkExpiry(key)`: lazily evict the key when its expiry has passed. -/
def checkExpiry (now : Nat) (kv : KV) (k : Key) : KV :=
  if isExpired now (kv.ttls k) then
    { store := fupd kv.store k none, ttls := fupd kv.ttls k none }
  else kv

/-- JavaScript truthiness of a stored value as used in `get`'s
`value || null`: the empty string is falsy; objects and arrays (hence the
nonempty JSON strings of session records, and lists) are truthy. -/
def isTruthy : Val → Bool
  | .vstr s => s != ""
  | .vsess _ => true
  | .vlist _ => true

/-- Model of `get(key)`: check expiry, then `value || null`. -/
def kvGet (now : Nat) (kv : KV) (k : Key) : KV × Option Val :=
  let kv1 := checkExpiry now kv k
  (kv1, match kv1.store k with
        | some v => if isTruthy v then some v else none
        | none => none)

/-- Model of `setex(key, seconds, value)`: store the value and arm the TTL at
`Date.now() + seconds * 1000`. -/
def setex (now : Nat) (kv : KV) (k : Key) (seconds : Nat) (v : Val) : KV :=
  { store := fupd kv.store k (some v),
    ttls := fupd kv.ttls k (some (now + seconds * 1000)) }

/-- Model of `del(key)`: drop the key from both maps (the source returns 1
unconditionally). -/
def del (kv : KV) (k : Key) : KV × Nat :=
  ({ store := fupd kv.store k none, ttls := fupd kv.ttls k none }, 1)

/-- Model of `this.store.get(key) || []` on a list key. A non-list value at a list
key is unreachable through the service layer (the key namespaces are
disjoint); the JavaScript would throw there, the model yields `[]`. -/
def listOf : Option Val → List Message
  | some (.vlist l) => l
  | _ => []

/-- Model of `rpush(key, ...values)`: append to tail; no expiry check in the
source. Returns the new length. -/
def rpush (kv : KV) (k : Key) (vals : List Message) : KV × Nat :=
  let l := listOf (kv.store k) ++ vals
  ({ kv with store := fupd kv.store k (some (.vlist l)) }, l.length)

/-- One bound of `Array.prototype.slice`: a negative index counts from the
end (clamped at 0), a non-negative one is clamped at the length. -/
def jsSliceBound (len : Nat) (i : Int) : Nat :=
  if i < 0 then ((len : Int) + i).toNat else min i.toNat len

/-- Model of `list.slice(start, end)` of JavaScript. -/
def jsSlice {α : Type} (l : List α) (start stop : Int) : List α :=
  let s := jsSliceBound l.length start
  let e := jsSliceBound l.length stop
  (l.take e).drop s

/-- Model of `lrange(key, start, stop)`: check expiry, then
`list.slice(start, stop === -1 ? list.length : stop + 1)`. -/
def lrange (now : Nat) (kv : KV) (k : Key) (start stop : Int) : KV × List Message :=
  let kv1 := checkExpiry now kv k
  let l := listOf (kv1.store k)
  let e : Int := if stop = -1 then (l.length : Int) else stop + 1
  (kv1, jsSlice l start e)

/-- Model of `expire(key, seconds)`: re-arm the TTL iff the key is physically in
`this.store`. Note the source does NOT run `_checkExpiry` first. -/
def expire (now : Nat) (kv : KV) (k : Key) (seconds : Nat) : KV × Nat :=
  if (kv.store k).isSome then
    ({ kv with ttls := fupd kv.ttls k (some (now + seconds * 1000)) }, 1)
  else (kv, 0)

/-- Model of `exists(key)`: check expiry, then `this.store.has(key) ? 1 : 0`
(truthiness of the value is irrelevant to `has`). -/
def kvExists (now : Nat) (kv : KV) (k : Key) : KV × Nat :=
  let kv1 := checkExpiry now kv k
  (kv1, if (kv1.store k).isSome then 1 else 0)

/-! ## Session service (part of the services, class SessionService) -/

/-- Model of `config.sessionTTL` (seconds): 86400 by default. -/
def sessionTTL : Nat := 86400

/-- Model of `getSession(sessionId)`: `get` then JSON-parse; `null` when absent. -/
def getSession (now : Nat) (kv : KV) (sid : String) : KV × Option SessionData :=
  let r := kvGet now kv (.session sid)
  (r.1, match r.2 with
        | some (.vsess d) => some d
        | _ => none)

/-- Model of `validateSession(sessionId)`: `exists`, and on success refresh the TTL
of both the session record and the history list. -/
def validateSession (now : Nat) (kv : KV) (sid : String) : KV × Bool :=
  let r := kvExists now kv (.session sid)
  if r.2 = 1 then
    let r2 := expire now r.1 (.session sid) sessionTTL
    let r3 := expire now r2.1 (.history sid) sessionTTL
    (r3.1, true)
  else (r.1, false)

/-- Model of `addMessage(sessionId, role, content)`: rpush the message, re-read the
session, increment `messageCount` and rewrite it with a fresh TTL, then
refresh the history TTL. The fresh uuid and timestamp are parameters. -/
def addMessage (now : Nat) (kv : KV) (sid role content mid ts : String) : KV × Message :=
  let msg : Message := ⟨mid, role, content, ts⟩
  let r1 := rpush kv (.history sid) [msg]
  let r2 := getSession now r1.1 sid
  let kv3 := match r2.2 with
    | some d => setex now r2.1 (.session sid) sessionTTL
        (.vsess { d with messageCount := d.messageCount + 1 })
    | none => r2.1
  let r4 := expire now kv3 (.history sid) sessionTTL
  (r4.1, msg)

/-- Model of `getHistory(sessionId, limit = 100)`: `lrange(history:<id>, -limit, -1)`. -/
def getHistory (now : Nat) (kv : KV) (sid : String) (limit : Nat) : KV × List Message :=
  lrange now kv (.history sid) (-(limit : Int)) (-1)

/-- Model of `clearHistory(sessionId)`: delete the history list, then reset the
session's `messageCount` to 0 (rewriting the record with a fresh TTL). -/
def clearHistory (now : Nat) (kv : KV) (sid : String) : KV :=
  let r1 := del kv (.history sid)
  let r2 := getSession now r1.1 sid
  match r2.2 with
  | some d => setex now r2.1 (.session sid) sessionTTL (.vsess { d with messageCount := 0 })
  | none => r2.1

/-! ## Helper lemmas -/

theorem isExpired_fresh (now : Nat) :
    isExpired now (some (now + sessionTTL * 1000)) = false := by
  simp [isExpired, sessionTTL]

/-- The store with no keys and no TTLs. -/
def emptyKV : KV := ⟨fun _ => none, fun _ => none⟩

/-! ## Claim C2 — lazy TTL expiry -/

/-- C2 (counterexample): the claim "once T seconds have elapsed …
refreshTTL (expire) returns false and does not extend the key's life —
under no sequence of operations does any caller observe the expired
value" is false: write "v" under a 1-second TTL at time 0; at time 2000ms
the key is expired, yet `expire` returns 1 (true) and re-arms the TTL,
and a subsequent `get` returns the expired value. -/
theorem c2_counterexample :
    (expire 2000 (setex 0 emptyKV (.session "k") 1 (.vstr "v")) (.session "k") 5).2 = 1 ∧
    (kvGet 2000
      (expire 2000 (setex 0 emptyKV (.session "k") 1 (.vstr "v")) (.session "k") 5).1
      (.session "k")).2 = some (.vstr "v") := by
  constructor <;> rfl

/-- C2 (amended): once strictly more than T seconds have elapsed past a
key's (nonzero) expiry instant, `get`, `exists` and `lrange` treat the key
as absent. `expire` (refreshTTL), however, performs no expiry check: on a
key still physically present it returns 1 (true) and re-arms the TTL from
the current instant, after which `get` observes the stale value again. -/
theorem c2_lazy_expiry_amended (now : Nat) (kv : KV) (k : Key) (v : Val) (e T : Nat)
    (hv : kv.store k = some v) (ht : kv.ttls k = some e)
    (h0 : e ≠ 0) (hlt : e < now) (htr : isTruthy v = true) :
    (kvGet now kv k).2 = none ∧
    (kvExists now kv k).2 = 0 ∧
    (∀ start stop, (lrange now kv k start stop).2 = []) ∧
    (expire now kv k T).2 = 1 ∧
    ((expire now kv k T).1).ttls k = some (now + T * 1000) ∧
    (kvGet now ((expire now kv k T).1) k).2 = some v := by
  have hexp : isExpired now (kv.ttls k) = true := by
    rw [ht]; simp [isExpired]; omega
  have hfresh : isExpired now (some (now + T * 1000)) = false := by
    simp [isExpired]
  refine ⟨?_, ?_, ?_, ?_, ?_, ?_⟩
  · simp [kvGet, checkExpiry, hexp, fupd]
  · simp [kvExists, checkExpiry, hexp, fupd]
  · intro start stop
    simp [lrange, checkExpiry, hexp, fupd, listOf, jsSlice]
  · simp [expire, hv]
  · simp [expire, hv, fupd]
  · simp [kvGet, expire, hv, checkExpiry, fupd, hfresh, htr]

/-- C2 (witness for the amended theorem): concrete instance of the amended
statement, at the state of the counterexample. -/
theorem c2_witness :
    (kvGet 2000 (setex 0 emptyKV (.session "k") 1 (.vstr "v")) (.session "k")).2 = none ∧
    (kvExists 2000 (setex 0 emptyKV (.session "k") 1 (.vstr "v")) (.session "k")).2 = 0 ∧
    (∀ start stop,
      (lrange 2000 (setex 0 emptyKV (.session "k") 1 (.vstr "v")) (.session "k") start stop).2 = []) ∧
    (expire 2000 (setex 0 emptyKV (.session "k") 1 (.vstr "v")) (.session "k") 5).2 = 1 ∧
    ((expire 2000 (setex 0 emptyKV (.session "k") 1 (.vstr "v")) (.session "k") 5).1).ttls
      (.session "k") = some (2000 + 5 * 1000) ∧
    (kvGet 2000
      ((expire 2000 (setex 0 emptyKV (.session "k") 1 (.vstr "v")) (.session "k") 5).1)
      (.session "k")).2 = some (.vstr "v") :=
  c2_lazy_expiry_amended 2000 (setex 0 emptyKV (.session "k") 1 (.vstr "v"))
    (.session "k") (.vstr "v") 1000 5 rfl rfl (by decide) (by decide) (by decide)

/-! ## Claim C10 — empty-string value: exists true, get null -/

/-- C10: in the in-memory backend, a stored (non-expired) empty-string
value is falsy, so `get` returns null while `exists` returns 1: the two
operations disagree on such keys. -/
theorem c10_empty_string_get_exists_disagree (now : Nat) (kv : KV) (k : Key)
    (hv : kv.store k = some (.vstr ""))
    (he : isExpired now (kv.ttls k) = false) :
    (kvGet now kv k).2 = none ∧ (kvExists now kv k).2 = 1 := by
  refine ⟨?_, ?_⟩ <;> simp [kvGet, kvExists, checkExpiry, he, hv, isTruthy]

/-- C10 (witness): a concrete store holding the empty string un-expired. -/
theorem c10_witness :
    (kvGet 7 ⟨fun k => if k = .session "s1" then some (.vstr "") else none,
      fun _ => none⟩ (.session "s1")).2 = none ∧
    (kvExists 7 ⟨fun k => if k = .session "s1" then some (.vstr "") else none,
      fun _ => none⟩ (.session "s1")).2 = 1 :=
  c10_empty_string_get_exists_disagree 7
    ⟨fun k => if k = .session "s1" then some (.vstr "") else none, fun _ => none⟩
    (.session "s1") (by decide) rfl

/-! ## Claim C7 — getHistory returns the most recent `limit` messages -/

/-- C7 (counterexample): the claim fails at limit `N = 0`. JavaScript's
`slice(-0, …)` is `slice(0, …)`, so `getHistory(sessionId, 0)` returns the
whole history (here 1 message) instead of `min(0, k) = 0` messages. -/
theorem c7_counterexample :
    ((getHistory 0
        ⟨fun k => if k = .history "s" then some (.vlist [⟨"m1", "user", "hi", "t0"⟩]) else none,
         fun _ => none⟩ "s" 0).2).length = 1 ∧ min 0 1 = 0 := by
  constructor <;> rfl

/-- C7 (amended): for every positive limit `N ≥ 1`, `getHistory` returns
exactly the most recent `min(N, k)` messages in oldest-first order, i.e.
the suffix `msgs.drop (k - N)`. (At `N = 0` the source returns the whole
list, because `-0` is `0` for `Array.prototype.slice`.) -/
theorem c7_getHistory_recent_suffix (now : Nat) (kv : KV) (sid : String)
    (msgs : List Message) (limit : Nat)
    (hv : kv.store (.history sid) = some (.vlist msgs))
    (he : isExpired now (kv.ttls (.history sid)) = false)
    (hl : 1 ≤ limit) :
    (getHistory now kv sid limit).2 = msgs.drop (msgs.length - limit) ∧
    ((getHistory now kv sid limit).2).length = min limit msgs.length := by
  have hmain : (getHistory now kv sid limit).2 = msgs.drop (msgs.length - limit) := by
    have hneg : -(limit : Int) < 0 := by omega
    have hlen : ¬ ((msgs.length : Int) < 0) := by omega
    simp only [getHistory, lrange, checkExpiry, he, Bool.false_eq_true, if_false, hv, listOf]
    have hstop : ((-1 : Int) = -1) = True := by simp
    simp only [hstop, if_true, jsSlice, jsSliceBound, if_pos hneg, if_neg hlen]
    have h1 : ((msgs.length : Int) + -(limit : Int)).toNat = msgs.length - limit := by omega
    have h2 : (msgs.length : Int).toNat = msgs.length := by omega
    rw [h1, h2, min_self, List.take_length]
  refine ⟨hmain, ?_⟩
  rw [hmain, List.length_drop]
  omega

/-- The history list used by the C7 witness. -/
def c7Msgs : List Message :=
  [⟨"m1", "user", "a", "t1"⟩, ⟨"m2", "assistant", "b", "t2"⟩, ⟨"m3", "user", "c", "t3"⟩]

/-- C7 (witness): a 3-message history read back with limit 2 yields the
last two messages, oldest first. -/
theorem c7_witness :
    (getHistory 5 ⟨fun k => if k = .history "s" then some (.vlist c7Msgs) else none,
        fun _ => none⟩ "s" 2).2 = c7Msgs.drop (c7Msgs.length - 2) ∧
    ((getHistory 5 ⟨fun k => if k = .history "s" then some (.vlist c7Msgs) else none,
        fun _ => none⟩ "s" 2).2).length = min 2 c7Msgs.length :=
  c7_getHistory_recent_suffix 5
    ⟨fun k => if k = .history "s" then some (.vlist c7Msgs) else none, fun _ => none⟩
    "s" c7Msgs 2 rfl rfl (by decide)

/-! ## Claim C9 — clearHistory deletes history, resets messageCount, keeps the session -/

/-- C9: for an existing (un-expired) session, `clearHistory` deletes the
history list — a subsequent `getHistory` at any time and limit returns the
empty sequence — and rewrites the session record with `messageCount = 0`
and every other field (`id`, `createdAt`) unchanged; the session record
itself still exists (`getSession` still succeeds, `exists` is 1). -/
theorem c9_clearHistory_resets (now : Nat) (kv : KV) (sid : String) (d : SessionData)
    (hv : kv.store (.session sid) = some (.vsess d))
    (he : isExpired now (kv.ttls (.session sid)) = false) :
    (getSession now (clearHistory now kv sid) sid).2 = some ⟨d.id, d.createdAt, 0⟩ ∧
    (∀ now2 limit, (getHistory now2 (clearHistory now kv sid) sid limit).2 = []) ∧
    (kvExists now (clearHistory now kv sid) (.session sid)).2 = 1 := by
  have hclear : clearHistory now kv sid =
      setex now
        ⟨fupd kv.store (.history sid) none, fupd kv.ttls (.history sid) none⟩
        (.session sid) sessionTTL (.vsess { d with messageCount := 0 }) := by
    simp [clearHistory, del, getSession, kvGet, checkExpiry, fupd, he, hv, isTruthy]
  refine ⟨?_, ?_, ?_⟩
  · rw [hclear]
    simp [getSession, kvGet, checkExpiry, setex, fupd, isExpired_fresh, isTruthy]
  · intro now2 limit
    rw [hclear]
    simp [getHistory, lrange, checkExpiry, setex, fupd, listOf, isExpired, jsSlice, jsSliceBound]
  · rw [hclear]
    simp [kvExists, checkExpiry, setex, fupd, isExpired_fresh]

/-- C9 (witness): clearing a 2-message session leaves the session record
with count 0 and an empty history. -/
theorem c9_witness :
    (getSession 3 (clearHistory 3
        ⟨fun k => if k = .session "s" then some (.vsess ⟨"s", "2024", 2⟩)
          else if k = .history "s" then
            some (.vlist [⟨"m1", "user", "a", "t1"⟩, ⟨"m2", "assistant", "b", "t2"⟩])
          else none,
         fun _ => none⟩ "s") "s").2 = some ⟨"s", "2024", 0⟩ ∧
    (∀ now2 limit, (getHistory now2 (clearHistory 3
        ⟨fun k => if k = .session "s" then some (.vsess ⟨"s", "2024", 2⟩)
          else if k = .history "s" then
            some (.vlist [⟨"m1", "user", "a", "t1"⟩, ⟨"m2", "assistant", "b", "t2"⟩])
          else none,
         fun _ => none⟩ "s") "s" limit).2 = []) ∧
    (kvExists 3 (clearHistory 3
        ⟨fun k => if k = .session "s" then some (.vsess ⟨"s", "2024", 2⟩)
          else if k = .history "s" then
            some (.vlist [⟨"m1", "user", "a", "t1"⟩, ⟨"m2", "assistant", "b", "t2"⟩])
          else none,
         fun _ => none⟩ "s") (.session "s")).2 = 1 :=
  c9_clearHistory_resets 3
    ⟨fun k => if k = .session "s" then some (.vsess ⟨"s", "2024", 2⟩)
      else if k = .history "s" then
        some (.vlist [⟨"m1", "user", "a", "t1"⟩, ⟨"m2", "assistant", "b", "t2"⟩])
      else none,
     fun _ => none⟩ "s" ⟨"s", "2024", 2⟩ rfl rfl

/-! ## Embedding service (embedding.js) — cosine similarity -/

/-- The dot-product loop of `cosineSimilarity` (over `i < vecA.length`;
for equal-length vectors `zip` covers exactly that range). -/
def dotProduct (a b : List ℚ) : ℚ := ((a.zip b).map fun p => p.1 * p.2).sum

/-- Sum of squares of a vector (`normA` / `normB` accumulators before the
square root). -/
def normSq (v : List ℚ) : ℚ := (v.map fun x => x * x).sum

/-- Model of `cosineSimilarity(vecA, vecB)`: one loop accumulates `dotProduct`,
`normA`, `normB`; then `denominator = sqrt(normA) * sqrt(normB)` and
`denominator === 0 ? 0 : dotProduct / denominator`. JavaScript numbers
are modelled as exact reals (coordinates rational); for vectors of equal
length the `zip`-based sums coincide with the source's index loop. -/
noncomputable def cosineSimilarity (a b : List ℚ) : ℝ :=
  let dp : ℚ := ((a.zip b).map fun p => p.1 * p.2).sum
  let nA : ℚ := ((a.zip b).map fun p => p.1 * p.1).sum
  let nB : ℚ := ((a.zip b).map fun p => p.2 * p.2).sum
  let denominator : ℝ := Real.sqrt (nA : ℝ) * Real.sqrt (nB : ℝ)
  if denominator = 0 then 0 else (dp : ℝ) / denominator

theorem zip_sq_left (a : List ℚ) : ∀ (b : List ℚ), a.length = b.length →
    ((a.zip b).map fun p => p.1 * p.1).sum = normSq a := by
  induction a with
  | nil => intro b _; simp [normSq]
  | cons x xs ih =>
    intro b h
    cases b with
    | nil => simp at h
    | cons y ys =>
      simp only [List.zip_cons_cons, List.map_cons, List.sum_cons, normSq] at *
      rw [ih ys (by simpa using h)]

theorem zip_sq_right (a : List ℚ) : ∀ (b : List ℚ), a.length = b.length →
    ((a.zip b).map fun p => p.2 * p.2).sum = normSq b := by
  induction a with
  | nil =>
    intro b h
    cases b with
    | nil => simp [normSq]
    | cons y ys => simp at h
  | cons x xs ih =>
    intro b h
    cases b with
    | nil => simp at h
    | cons y ys =>
      simp only [List.zip_cons_cons, List.map_cons, List.sum_cons, normSq] at *
      rw [ih ys (by simpa using h)]

/-! ## Claim C8 — cosine similarity: quotient formula, 0 on zero norms -/

/-- C8: for equal-length vectors, `cosineSimilarity` equals
`dot(a,b) / (‖a‖ · ‖b‖)` when both Euclidean norms are nonzero, and is
exactly `0` whenever either norm is zero; the function is total (no NaN,
no exception: the division is guarded by the `denominator === 0` test). -/
theorem c8_cosineSimilarity_spec (a b : List ℚ) (h : a.length = b.length) :
    (Real.sqrt ((normSq a : ℚ) : ℝ) ≠ 0 → Real.sqrt ((normSq b : ℚ) : ℝ) ≠ 0 →
      cosineSimilarity a b =
        ((dotProduct a b : ℚ) : ℝ) /
          (Real.sqrt ((normSq a : ℚ) : ℝ) * Real.sqrt ((normSq b : ℚ) : ℝ))) ∧
    (Real.sqrt ((normSq a : ℚ) : ℝ) = 0 ∨ Real.sqrt ((normSq b : ℚ) : ℝ) = 0 →
      cosineSimilarity a b = 0) := by
  have hA := zip_sq_left a b h
  have hB := zip_sq_right a b h
  constructor
  · intro hna hnb
    rw [cosineSimilarity, hA, hB]
    simp only [dotProduct]
    rw [if_neg (by exact mul_ne_zero hna hnb)]
  · intro hz
    rw [cosineSimilarity, hA, hB]
    rw [if_pos (by rcases hz with hz | hz <;> simp [hz])]

/-- C8 (witness): instance at the concrete pair `[1, 0]`, `[0, 2]`. -/
theorem c8_witness :
    (Real.sqrt ((normSq [(1 : ℚ), 0] : ℚ) : ℝ) ≠ 0 →
      Real.sqrt ((normSq [(0 : ℚ), 2] : ℚ) : ℝ) ≠ 0 →
      cosineSimilarity [(1 : ℚ), 0] [(0 : ℚ), 2] =
        ((dotProduct [(1 : ℚ), 0] [(0 : ℚ), 2] : ℚ) : ℝ) /
          (Real.sqrt ((normSq [(1 : ℚ), 0] : ℚ) : ℝ) *
            Real.sqrt ((normSq [(0 : ℚ), 2] : ℚ) : ℝ))) ∧
    (Real.sqrt ((normSq [(1 : ℚ), 0] : ℚ) : ℝ) = 0 ∨
      Real.sqrt ((normSq [(0 : ℚ), 2] : ℚ) : ℝ) = 0 →
      cosineSimilarity [(1 : ℚ), 0] [(0 : ℚ), 2] = 0) :=
  c8_cosineSimilarity_spec [(1 : ℚ), 0] [(0 : ℚ), 2] rfl

/-! ## Vector store (vectorStore.js, class VectorStore) -/

/-- Model of `config.rag.topK = 5`. -/
def ragTopK : Nat := 5

/-- The three parallel arrays `this.documents`, `this.embeddings`,
`this.metadata` (metadata objects modelled opaquely as strings). -/
structure VectorStore where
  documents : List String
  embeddings : List (List ℚ)
  metadata : List String

/-- Model of `getDocumentCount()` / `size()`. -/
def getDocumentCount (vs : VectorStore) : Nat := vs.documents.length

/-- One entry of the `similarities` array: `{index, score}`. -/
structure Sim where
  index : Nat
  score : ℝ

/-- One entry of the result of `search`: `{text, score, metadata}` (the
numeric score; the orchestrator's later `toFixed(4)` presentation is
elided). -/
structure SearchResult where
  text : String
  score : ℝ
  metadata : String

/-- Insert into a list already sorted by descending score, after every
earlier element of equal score: the unique stable position used by
`similarities.sort((a, b) => b.score - a.score)` for an element arriving
after the list's elements. -/
noncomputable def insertSim (x : Sim) : List Sim → List Sim
  | [] => [x]
  | y :: ys => if y.score ≤ x.score then x :: y :: ys else y :: insertSim x ys

/-- The stable descending-by-score sort
`similarities.sort((a, b) => b.score - a.score)` (JavaScript's sort is
stable, so its result is the unique stable sort, which this insertion
sort computes). -/
noncomputable def sortByScoreDesc : List Sim → List Sim
  | [] => []
  | x :: xs => insertSim x (sortByScoreDesc xs)

/-- Model of `this.embeddings.map((embedding, index) => ({index, score:
cosineSimilarity(queryEmbedding, embedding)}))`. -/
noncomputable def simScores (vs : VectorStore) (queryEmbedding : List ℚ) : List Sim :=
  vs.embeddings.enum.map fun p => ⟨p.1, cosineSimilarity queryEmbedding p.2⟩

/-- The `topResults` list of `search`: empty when the corpus is empty
(checked before anything else), else sort descending and `slice(0, topK)`. -/
noncomputable def searchRanked (vs : VectorStore) (queryEmbedding : List ℚ) (topK : Nat) :
    List Sim :=
  if vs.documents.length = 0 then []
  else (sortByScoreDesc (simScores vs queryEmbedding)).take topK

/-- Model of `search(query, topK)`: the query embedding (produced by the external
embedding component) is a parameter; map the ranked indices back to
`{text, score, metadata}`. -/
noncomputable def search (vs : VectorStore) (queryEmbedding : List ℚ) (topK : Nat) :
    List SearchResult :=
  (searchRanked vs queryEmbedding topK).map fun r =>
    ⟨vs.documents.getD r.index "", r.score, vs.metadata.getD r.index ""⟩

/-- Descending-score order with ties broken by insertion (index) order:
the ordering the claim asserts of `search` results. -/
def rankedBefore (u v : Sim) : Prop :=
  v.score ≤ u.score ∧ (u.score = v.score → u.index < v.index)

theorem length_insertSim (x : Sim) (l : List Sim) :
    (insertSim x l).length = l.length + 1 := by
  induction l with
  | nil => rfl
  | cons y ys ih =>
    rw [insertSim]
    split
    · simp
    · simp [ih]

theorem mem_insertSim {z x : Sim} {l : List Sim} :
    z ∈ insertSim x l ↔ z = x ∨ z ∈ l := by
  induction l with
  | nil => simp [insertSim]
  | cons y ys ih =>
    rw [insertSim]
    split
    · simp [or_comm, or_left_comm]
    · simp [ih, or_left_comm]

theorem length_sortByScoreDesc (l : List Sim) :
    (sortByScoreDesc l).length = l.length := by
  induction l with
  | nil => rfl
  | cons x xs ih => rw [sortByScoreDesc, length_insertSim, ih]; rfl

theorem mem_sortByScoreDesc {z : Sim} {l : List Sim} :
    z ∈ sortByScoreDesc l ↔ z ∈ l := by
  induction l with
  | nil => simp [sortByScoreDesc]
  | cons x xs ih => rw [sortByScoreDesc]; simp [mem_insertSim, ih]

theorem pairwise_insertSim (x : Sim) (l : List Sim)
    (hl : l.Pairwise rankedBefore) (hx : ∀ y ∈ l, x.index < y.index) :
    (insertSim x l).Pairwise rankedBefore := by
  induction l with
  | nil => simp [insertSim, rankedBefore]
  | cons y ys ih =>
    rw [insertSim]
    rcases List.pairwise_cons.mp hl with ⟨hy, hys⟩
    split
    · rename_i hle
      refine List.pairwise_cons.mpr ⟨?_, hl⟩
      intro z hz
      rcases List.mem_cons.mp hz with rfl | hz
      · exact ⟨hle, fun _ => hx z (List.mem_cons_self _ _)⟩
      · exact ⟨le_trans (hy z hz).1 hle, fun _ => hx z (List.mem_cons.mpr (Or.inr hz))⟩
    · rename_i hgt
      push_neg at hgt
      refine List.pairwise_cons.mpr ⟨?_, ih hys fun z hz => hx z (List.mem_cons.mpr (Or.inr hz))⟩
      intro z hz
      rcases mem_insertSim.mp hz with rfl | hz
      · exact ⟨le_of_lt hgt, fun hE => absurd hE.symm (ne_of_lt hgt)⟩
      · exact hy z hz

theorem pairwise_sortByScoreDesc (l : List Sim)
    (h : l.Pairwise fun u v => u.index < v.index) :
    (sortByScoreDesc l).Pairwise rankedBefore := by
  induction l with
  | nil => simp [sortByScoreDesc]
  | cons x xs ih =>
    rcases List.pairwise_cons.mp h with ⟨hx, hxs⟩
    rw [sortByScoreDesc]
    exact pairwise_insertSim x _ (ih hxs) fun y hy => hx y (mem_sortByScoreDesc.mp hy)

theorem pairwise_index_simScores (vs : VectorStore) (qe : List ℚ) :
    (simScores vs qe).Pairwise fun u v => u.index < v.index := by
  have henum : vs.embeddings.enum.Pairwise fun p q => p.1 < q.1 := by
    rw [List.pairwise_iff_getElem]
    intro i j hi hj hij
    simp only [List.getElem_enum]
    simpa using hij
  exact List.Pairwise.map _ (fun p q hpq => hpq) henum

/-! ## Claim C3 — search: bounded, sorted, stable, total on empty index -/

/-- C3: for every index state (with its parallel arrays aligned) and every
query embedding, `search` returns at most `topK` results and at most
`size()` results; the ranked list is sorted non-increasing by score with
ties in insertion order; on an empty index the result is `[]` (a value,
not an error — the function is total). -/
theorem c3_search_spec (vs : VectorStore) (qe : List ℚ) (topK : Nat)
    (h : vs.embeddings.length = vs.documents.length) :
    (search vs qe topK).length ≤ topK ∧
    (search vs qe topK).length ≤ getDocumentCount vs ∧
    (searchRanked vs qe topK).Pairwise rankedBefore ∧
    (vs.documents = [] → search vs qe topK = []) := by
  have hlen : (search vs qe topK).length = (searchRanked vs qe topK).length := by
    simp [search]
  refine ⟨?_, ?_, ?_, ?_⟩
  · rw [hlen, searchRanked]
    split
    · simp
    · exact List.length_take_le topK _
  · rw [hlen, searchRanked, getDocumentCount]
    split
    · simp
    · calc ((sortByScoreDesc (simScores vs qe)).take topK).length
          ≤ (sortByScoreDesc (simScores vs qe)).length := by
            exact List.length_take_le' topK _
        _ = vs.documents.length := by
            rw [length_sortByScoreDesc]
            simp [simScores, h]
  · rw [searchRanked]
    split
    · simp
    · exact List.Pairwise.sublist (List.take_sublist _ _)
        (pairwise_sortByScoreDesc _ (pairwise_index_simScores vs qe))
  · intro hempty
    simp [search, searchRanked, hempty]

/-- C3 (witness): a two-document store with one-dimensional embeddings. -/
theorem c3_witness :
    (search ⟨["a", "b"], [[1], [0]], ["m1", "m2"]⟩ [1] 5).length ≤ 5 ∧
    (search ⟨["a", "b"], [[1], [0]], ["m1", "m2"]⟩ [1] 5).length ≤
      getDocumentCount ⟨["a", "b"], [[1], [0]], ["m1", "m2"]⟩ ∧
    (searchRanked ⟨["a", "b"], [[1], [0]], ["m1", "m2"]⟩ [1] 5).Pairwise rankedBefore ∧
    ((⟨["a", "b"], [[1], [0]], ["m1", "m2"]⟩ : VectorStore).documents = [] →
      search ⟨["a", "b"], [[1], [0]], ["m1", "m2"]⟩ [1] 5 = []) :=
  c3_search_spec ⟨["a", "b"], [[1], [0]], ["m1", "m2"]⟩ [1] 5 rfl

/-! ## Claim C4 — addDocuments is all-or-nothing -/

/-- One element of the `docs` argument of `addDocuments`. -/
structure DocumentInput where
  text : String
  metadata : String

/-- Model of `addDocuments(docs)`: first `await generateEmbeddings(texts)` — whose
outcome (resolved vectors, or a thrown error) is the explicit
`embedOutcome` parameter — and only then push onto the three parallel
arrays (the loop indexes `embeddings[i]` for `i < docs.length`). An
embedding failure propagates before any mutation. -/
def addDocuments (vs : VectorStore) (docs : List DocumentInput)
    (embedOutcome : Except String (List (List ℚ))) : Except String VectorStore :=
  match embedOutcome with
  | .error e => .error e
  | .ok embs => .ok
      { documents := vs.documents ++ docs.map (·.text),
        embeddings := vs.embeddings ++ (List.range docs.length).map fun i => embs.getD i [],
        metadata := vs.metadata ++ docs.map (·.metadata) }

/-- The caller's view of the store after `addDocuments`: on a thrown
error the in-memory state is whatever it was before the call. -/
def afterAddDocuments (vs : VectorStore) (docs : List DocumentInput)
    (embedOutcome : Except String (List (List ℚ))) : VectorStore :=
  match addDocuments vs docs embedOutcome with
  | .ok vs2 => vs2
  | .error _ => vs

/-- C4: if the embedding call for the batch fails, `addDocuments` leaves
the index unchanged — the store (all three parallel arrays, hence
`size()` and every stored triple) is identical before and after; and on
success the whole batch commits (`size()` grows by the batch size). -/
theorem c4_addDocuments_atomic (vs : VectorStore) (docs : List DocumentInput)
    (e : String) (embs : List (List ℚ)) :
    afterAddDocuments vs docs (.error e) = vs ∧
    getDocumentCount (afterAddDocuments vs docs (.error e)) = getDocumentCount vs ∧
    addDocuments vs docs (.error e) = .error e ∧
    getDocumentCount (afterAddDocuments vs docs (.ok embs)) =
      getDocumentCount vs + docs.length := by
  refine ⟨rfl, rfl, rfl, ?_⟩
  simp [afterAddDocuments, addDocuments, getDocumentCount]

/-! ## Gemini generation service (class GeminiService) -/

/-- Outcome of the external blocking `model.generateContent` call: the
answer text, or a thrown error carrying an HTTP status. -/
inductive GenOutcome where
  | ok (answer : String)
  | err (status : Nat)

/-- Model of `generateResponse(query, context, chatHistory)`: returns the model's
text; on ANY error the catch block rethrows
`new Error('Failed to generate response from Gemini API')` — there is no
fallback in the blocking path. -/
def generateResponse (outcome : GenOutcome) : Except String String :=
  match outcome with
  | .ok answer => .ok answer
  | .err _ => .error "Failed to generate response from Gemini API"

/-- Outcome of the external `model.generateContentStream` call: the
ordered finite delta sequence, or a thrown error with an HTTP status
(errors reject the initial await, before any delta is produced). -/
inductive StreamOutcome where
  | ok (deltas : List String)
  | err (status : Nat)

/-- The rate-limit fallback string of `streamResponse`'s catch block:
apology + the first 3 context passages truncated to 300 characters. -/
def rateLimitFallback (context : List SearchResult) : String :=
  "I apologize, but the AI service is currently experiencing high demand. Here\'s what I found in the news:\n\n"
    ++ String.intercalate "\n\n"
        ((context.take 3).enum.map fun p =>
          "**Source " ++ toString (p.1 + 1) ++ "**: " ++ p.2.text.take 300 ++ "...")
    ++ "\n\nPlease try again in a few moments for a more detailed response."

/-- Model of `streamResponse(query, context, chatHistory, onChunk)`: forward each
delta to `onChunk` while accumulating `fullResponse`; on an error with
`status === 429` emit and return the fallback; otherwise rethrow
`'Failed to stream response from Gemini API'`. Returns (the strings
passed to `onChunk` in order, the returned answer or thrown error). -/
def streamResponse (context : List SearchResult) (outcome : StreamOutcome) :
    List String × Except String String :=
  match outcome with
  | .ok deltas => (deltas, .ok (String.join deltas))
  | .err status =>
      if status = 429 then
        ([rateLimitFallback context], .ok (rateLimitFallback context))
      else ([], .error "Failed to stream response from Gemini API")

/-! ## RAG orchestration (rag.js, class RAGService) -/

/-- A marker recorded when the pipeline hands off to the external
generation component (step 5). -/
inductive Event where
  | genCall
  | streamCall
deriving DecidableEq

/-- The mutable state the orchestrator touches: the KV store (sessions,
history) and the vector store. -/
structure World where
  kv : KV
  vs : VectorStore

/-- The `{answer, sources}` value returned by both pipeline entry
points. -/
structure QueryResult where
  answer : String
  sources : List SearchResult

/-- The canned "no corpus" answer of both entry points. -/
def noDocsResponse : String :=
  "I don\'t have any news articles to search through yet. Please make sure the news corpus has been ingested."

/-- Model of `sources: relevantDocs.map(doc => ({text: doc.text.substring(0, 200) + \'...\', score, metadata}))`
(the `toFixed(4)` decimal rendering of the score is elided, keeping the
number). -/
def mkSources (docs : List SearchResult) : List SearchResult :=
  docs.map fun d => ⟨d.text.take 200 ++ "...", d.score, d.metadata⟩

/-- Result of one `processQuery` run: final state, the external-call
markers, and the returned value or thrown error. -/
structure RunResult where
  world : World
  events : List Event
  result : Except String QueryResult

/-- The history list currently stored for `sid` (`[]` when absent). -/
def histListOf (kv : KV) (sid : String) : List Message :=
  listOf (kv.store (.history sid))

/-- Model of `processQuery(sessionId, query)`: validate session (throw if
invalid), fetch last 10 history messages, search top-5; when no documents
are retrieved persist the user turn plus the canned answer and return it
with empty sources, never invoking generation; otherwise persist the user
turn, invoke generation (outcome `gen`), persist the assistant turn and
return `{answer, sources}`. A generation error propagates (the assistant
turn is not persisted). The query embedding (external embedding call) and
the fresh message ids/timestamps are parameters. -/
noncomputable def processQuery (now : Nat) (w : World) (sid query : String)
    (queryEmbedding : List ℚ) (gen : GenOutcome) (uid uts aid ats : String) : RunResult :=
  let v := validateSession now w.kv sid
  if v.2 = false then ⟨⟨v.1, w.vs⟩, [], .error "Invalid or expired session"⟩
  else
    let hist := getHistory now v.1 sid 10
    let relevantDocs := search w.vs queryEmbedding ragTopK
    if relevantDocs.length = 0 then
      let r1 := addMessage now hist.1 sid "user" query uid uts
      let r2 := addMessage now r1.1 sid "assistant" noDocsResponse aid ats
      ⟨⟨r2.1, w.vs⟩, [], .ok ⟨noDocsResponse, []⟩⟩
    else
      let r1 := addMessage now hist.1 sid "user" query uid uts
      match generateResponse gen with
      | .error e => ⟨⟨r1.1, w.vs⟩, [.genCall], .error e⟩
      | .ok answer =>
        let r2 := addMessage now r1.1 sid "assistant" answer aid ats
        ⟨⟨r2.1, w.vs⟩, [.genCall], .ok ⟨answer, mkSources relevantDocs⟩⟩

/-- Result of one `processQueryStream` run: additionally the strings the
caller-supplied sink `onChunk` received, in order. -/
structure StreamRunResult where
  world : World
  emitted : List String
  events : List Event
  result : Except String QueryResult

/-- Model of `processQueryStream(sessionId, query, onChunk)`: as `processQuery`,
but the canned answer is also sent to the sink, and generation is the
streaming call (`streamResponse`), whose deltas go to the orchestrator's
own `onChunk` unmodified. -/
noncomputable def processQueryStream (now : Nat) (w : World) (sid query : String)
    (queryEmbedding : List ℚ) (outcome : StreamOutcome) (uid uts aid ats : String) :
    StreamRunResult :=
  let v := validateSession now w.kv sid
  if v.2 = false then ⟨⟨v.1, w.vs⟩, [], [], .error "Invalid or expired session"⟩
  else
    let hist := getHistory now v.1 sid 10
    let relevantDocs := search w.vs queryEmbedding ragTopK
    if relevantDocs.length = 0 then
      let r1 := addMessage now hist.1 sid "user" query uid uts
      let r2 := addMessage now r1.1 sid "assistant" noDocsResponse aid ats
      ⟨⟨r2.1, w.vs⟩, [noDocsResponse], [], .ok ⟨noDocsResponse, []⟩⟩
    else
      let r1 := addMessage now hist.1 sid "user" query uid uts
      let sr := streamResponse relevantDocs outcome
      match sr.2 with
      | .error e => ⟨⟨r1.1, w.vs⟩, sr.1, [.streamCall], .error e⟩
      | .ok answer =>
        let r2 := addMessage now r1.1 sid "assistant" answer aid ats
        ⟨⟨r2.1, w.vs⟩, sr.1, [.streamCall], .ok ⟨answer, mkSources relevantDocs⟩⟩

/-! ## Claim C6 — streaming deltas concatenate to the answer -/

/-- C6: whenever `processQueryStream` returns `{answer, sources}` (rather
than throwing), the concatenation of the deltas delivered to the
caller-supplied sink equals the returned answer; and when the generation
component streamed deltas (non-empty retrieval, outcome `ok deltas`), the
sink received exactly those deltas, unmodified and in order. In this
functional model every sink delivery happens before the call returns by
construction. -/
theorem processQueryStream_invalid (now : Nat) (w : World) (sid query : String)
    (qe : List ℚ) (outcome : StreamOutcome) (uid uts aid ats : String)
    (hv : (validateSession now w.kv sid).2 = false) :
    processQueryStream now w sid query qe outcome uid uts aid ats =
      ⟨⟨(validateSession now w.kv sid).1, w.vs⟩, [], [],
        .error "Invalid or expired session"⟩ := by
  simp [processQueryStream, hv]

theorem processQueryStream_canned (now : Nat) (w : World) (sid query : String)
    (qe : List ℚ) (outcome : StreamOutcome) (uid uts aid ats : String)
    (hv : (validateSession now w.kv sid).2 = true)
    (hlen : (search w.vs qe ragTopK).length = 0) :
    processQueryStream now w sid query qe outcome uid uts aid ats =
      ⟨⟨(addMessage now
            (addMessage now (getHistory now (validateSession now w.kv sid).1 sid 10).1
              sid "user" query uid uts).1
            sid "assistant" noDocsResponse aid ats).1, w.vs⟩,
        [noDocsResponse], [], .ok ⟨noDocsResponse, []⟩⟩ := by
  simp [processQueryStream, hv, hlen]

theorem processQueryStream_gen (now : Nat) (w : World) (sid query : String)
    (qe : List ℚ) (outcome : StreamOutcome) (uid uts aid ats : String)
    (hv : (validateSession now w.kv sid).2 = true)
    (hlen : (search w.vs qe ragTopK).length ≠ 0) :
    processQueryStream now w sid query qe outcome uid uts aid ats =
      match (streamResponse (search w.vs qe ragTopK) outcome).2 with
      | .error e =>
        ⟨⟨(addMessage now (getHistory now (validateSession now w.kv sid).1 sid 10).1
            sid "user" query uid uts).1, w.vs⟩,
          (streamResponse (search w.vs qe ragTopK) outcome).1, [.streamCall], .error e⟩
      | .ok answer =>
        ⟨⟨(addMessage now
              (addMessage now (getHistory now (validateSession now w.kv sid).1 sid 10).1
                sid "user" query uid uts).1
              sid "assistant" answer aid ats).1, w.vs⟩,
          (streamResponse (search w.vs qe ragTopK) outcome).1, [.streamCall],
          .ok ⟨answer, mkSources (search w.vs qe ragTopK)⟩⟩ := by
  simp only [processQueryStream, hv, Bool.true_eq_false, if_false, hlen, if_neg hlen]

theorem streamResponse_ok (ctx : List SearchResult) (ds : List String) :
    streamResponse ctx (.ok ds) = (ds, .ok (String.join ds)) := rfl

theorem streamResponse_429 (ctx : List SearchResult) :
    streamResponse ctx (.err 429) =
      ([rateLimitFallback ctx], .ok (rateLimitFallback ctx)) := rfl

theorem streamResponse_err (ctx : List SearchResult) (status : Nat) (h : status ≠ 429) :
    streamResponse ctx (.err status) =
      ([], .error "Failed to stream response from Gemini API") := by
  simp [streamResponse, h]

/-- C6: whenever `processQueryStream` returns `{answer, sources}` (rather
than throwing), the concatenation of the deltas delivered to the
caller-supplied sink equals the returned answer; and when the generation
component streamed deltas (non-empty retrieval, outcome `ok deltas`), the
sink received exactly those deltas, unmodified and in order. In this
functional model every sink delivery happens before the call returns by
construction. -/
theorem c6_stream_concat (now : Nat) (w : World) (sid query : String)
    (qe : List ℚ) (outcome : StreamOutcome) (uid uts aid ats : String)
    (r : QueryResult) (deltas : List String)
    (hr : (processQueryStream now w sid query qe outcome uid uts aid ats).result = .ok r) :
    String.join (processQueryStream now w sid query qe outcome uid uts aid ats).emitted
      = r.answer ∧
    (outcome = .ok deltas → search w.vs qe ragTopK ≠ [] →
      (processQueryStream now w sid query qe outcome uid uts aid ats).emitted = deltas) := by
  cases hv : (validateSession now w.kv sid).2 with
  | false =>
    rw [processQueryStream_invalid now w sid query qe outcome uid uts aid ats hv] at hr
    simp at hr
  | true =>
    by_cases hlen : (search w.vs qe ragTopK).length = 0
    · rw [processQueryStream_canned now w sid query qe outcome uid uts aid ats hv hlen] at hr ⊢
      simp only [Except.ok.injEq] at hr
      subst hr
      refine ⟨by simp [String.join], ?_⟩
      intro _ hne
      exact absurd (List.length_eq_zero.mp hlen) hne
    · rw [processQueryStream_gen now w sid query qe outcome uid uts aid ats hv hlen] at hr ⊢
      cases outcome with
      | ok ds =>
        simp only [streamResponse_ok] at hr ⊢
        simp only [Except.ok.injEq] at hr
        subst hr
        exact ⟨rfl, fun hds _ => by cases hds; rfl⟩
      | err status =>
        by_cases h429 : status = 429
        · subst h429
          simp only [streamResponse_429] at hr ⊢
          simp only [Except.ok.injEq] at hr
          subst hr
          refine ⟨by simp [String.join], ?_⟩
          intro hds
          exact absurd hds (by simp)
        · simp only [streamResponse_err _ _ h429] at hr
          simp at hr

/-! ## Run lemmas: symbolic execution of the service operations -/

@[simp] theorem fupd_hist_at_session {α : Type} (f : Key → Option α) (a b : String)
    (v : Option α) : fupd f (.history b) v (.session a) = f (.session a) :=
  fupd_ne _ _ _ (by simp)

@[simp] theorem fupd_session_at_hist {α : Type} (f : Key → Option α) (a b : String)
    (v : Option α) : fupd f (.session b) v (.history a) = f (.history a) :=
  fupd_ne _ _ _ (by simp)

theorem validateSession_valid (now : Nat) (kv : KV) (sid : String) (d : SessionData)
    (hs : kv.store (.session sid) = some (.vsess d))
    (he : isExpired now (kv.ttls (.session sid)) = false) :
    validateSession now kv sid =
      (if (kv.store (.history sid)).isSome then
        { store := kv.store,
          ttls := fupd (fupd kv.ttls (.session sid) (some (now + sessionTTL * 1000)))
                    (.history sid) (some (now + sessionTTL * 1000)) }
       else
        { store := kv.store,
          ttls := fupd kv.ttls (.session sid) (some (now + sessionTTL * 1000)) }, true) := by
  cases hh : kv.store (.history sid) with
  | none => simp [validateSession, kvExists, checkExpiry, he, hs, expire, hh]
  | some v => simp [validateSession, kvExists, checkExpiry, he, hs, expire, hh]

theorem getHistory_state_valid (now : Nat) (kv : KV) (sid : String) (d : SessionData)
    (hs : kv.store (.session sid) = some (.vsess d))
    (he : isExpired now (kv.ttls (.session sid)) = false)
    (hth : isExpired now (kv.ttls (.history sid)) = false) :
    (getHistory now (validateSession now kv sid).1 sid 10).1 =
      (validateSession now kv sid).1 := by
  rw [validateSession_valid now kv sid d hs he]
  cases hh : kv.store (.history sid) with
  | none => simp [getHistory, lrange, checkExpiry, hh, hth]
  | some v => simp [getHistory, lrange, checkExpiry, hh, isExpired_fresh]

theorem addMessage_run (now : Nat) (kv : KV) (sid role content mid ts : String)
    (d : SessionData)
    (hs : kv.store (.session sid) = some (.vsess d))
    (he : isExpired now (kv.ttls (.session sid)) = false) :
    addMessage now kv sid role content mid ts =
      ({ store := fupd (fupd kv.store (.history sid)
            (some (.vlist (listOf (kv.store (.history sid)) ++ [⟨mid, role, content, ts⟩]))))
            (.session sid) (some (.vsess { d with messageCount := d.messageCount + 1 })),
         ttls := fupd (fupd kv.ttls (.session sid) (some (now + sessionTTL * 1000)))
            (.history sid) (some (now + sessionTTL * 1000)) },
       ⟨mid, role, content, ts⟩) := by
  simp [addMessage, rpush, getSession, kvGet, checkExpiry, he, hs, isTruthy, setex, expire]

theorem processQuery_canned (now : Nat) (w : World) (sid query : String)
    (qe : List ℚ) (gen : GenOutcome) (uid uts aid ats : String)
    (hv : (validateSession now w.kv sid).2 = true)
    (hlen : (search w.vs qe ragTopK).length = 0) :
    processQuery now w sid query qe gen uid uts aid ats =
      ⟨⟨(addMessage now
            (addMessage now (getHistory now (validateSession now w.kv sid).1 sid 10).1
              sid "user" query uid uts).1
            sid "assistant" noDocsResponse aid ats).1, w.vs⟩,
        [], .ok ⟨noDocsResponse, []⟩⟩ := by
  simp [processQuery, hv, hlen]

theorem processQuery_gen (now : Nat) (w : World) (sid query : String)
    (qe : List ℚ) (gen : GenOutcome) (uid uts aid ats : String)
    (hv : (validateSession now w.kv sid).2 = true)
    (hlen : (search w.vs qe ragTopK).length ≠ 0) :
    processQuery now w sid query qe gen uid uts aid ats =
      match generateResponse gen with
      | .error e =>
        ⟨⟨(addMessage now (getHistory now (validateSession now w.kv sid).1 sid 10).1
            sid "user" query uid uts).1, w.vs⟩,
          [.genCall], .error e⟩
      | .ok answer =>
        ⟨⟨(addMessage now
              (addMessage now (getHistory now (validateSession now w.kv sid).1 sid 10).1
                sid "user" query uid uts).1
              sid "assistant" answer aid ats).1, w.vs⟩,
          [.genCall], .ok ⟨answer, mkSources (search w.vs qe ragTopK)⟩⟩ := by
  simp only [processQuery, hv, Bool.true_eq_false, if_false, hlen, if_neg hlen]

/-! ## Claim C5 — empty corpus: canned answer, both turns persisted, no generation -/

/-- C5: for every valid (un-expired) session, when the corpus is empty
both `processQuery` and `processQueryStream` return the canned "no
corpus" answer with an empty sources list, persist the user turn and the
canned answer as the assistant turn (appended, in order, to the session's
history list), terminate successfully, and never hand off to the
generation component (no generation event; the outcome parameters `gen`
and `outcome` are universally quantified and unused). The streaming
variant also delivers the canned answer to the sink. -/
theorem c5_empty_corpus (now : Nat) (kv : KV) (vs : VectorStore) (sid query : String)
    (qe : List ℚ) (gen : GenOutcome) (outcome : StreamOutcome)
    (uid uts aid ats : String) (d : SessionData)
    (hs : kv.store (.session sid) = some (.vsess d))
    (he : isExpired now (kv.ttls (.session sid)) = false)
    (hth : isExpired now (kv.ttls (.history sid)) = false)
    (hempty : vs.documents = []) :
    (processQuery now ⟨kv, vs⟩ sid query qe gen uid uts aid ats).result =
      .ok ⟨noDocsResponse, []⟩ ∧
    (processQuery now ⟨kv, vs⟩ sid query qe gen uid uts aid ats).events = [] ∧
    (processQuery now ⟨kv, vs⟩ sid query qe gen uid uts aid ats).world.kv.store
        (.history sid) =
      some (.vlist (histListOf kv sid ++
        [⟨uid, "user", query, uts⟩, ⟨aid, "assistant", noDocsResponse, ats⟩])) ∧
    (processQueryStream now ⟨kv, vs⟩ sid query qe outcome uid uts aid ats).result =
      .ok ⟨noDocsResponse, []⟩ ∧
    (processQueryStream now ⟨kv, vs⟩ sid query qe outcome uid uts aid ats).events = [] ∧
    (processQueryStream now ⟨kv, vs⟩ sid query qe outcome uid uts aid ats).emitted =
      [noDocsResponse] ∧
    (processQueryStream now ⟨kv, vs⟩ sid query qe outcome uid uts aid ats).world.kv.store
        (.history sid) =
      some (.vlist (histListOf kv sid ++
        [⟨uid, "user", query, uts⟩, ⟨aid, "assistant", noDocsResponse, ats⟩])) := by
  have hsearch : search vs qe ragTopK = [] := by
    simp [search, searchRanked, hempty]
  have hv : (validateSession now kv sid).2 = true := by
    rw [validateSession_valid now kv sid d hs he]
  have hkvh : (getHistory now (validateSession now kv sid).1 sid 10).1 =
      (validateSession now kv sid).1 :=
    getHistory_state_valid now kv sid d hs he hth
  have hvstore : (validateSession now kv sid).1.store = kv.store := by
    rw [validateSession_valid now kv sid d hs he]
    split <;> rfl
  have hvttl : (validateSession now kv sid).1.ttls (.session sid) =
      some (now + sessionTTL * 1000) := by
    rw [validateSession_valid now kv sid d hs he]
    split <;> simp
  -- the user-turn write
  have hu := addMessage_run now (validateSession now kv sid).1 sid "user" query uid uts d
    (by rw [hvstore, hs]) (by rw [hvttl]; exact isExpired_fresh now)
  -- the assistant-turn write, on the state after the user turn
  have ha := addMessage_run now
    ((addMessage now (validateSession now kv sid).1 sid "user" query uid uts).1)
    sid "assistant" noDocsResponse aid ats { d with messageCount := d.messageCount + 1 }
    (by rw [hu]; simp) (by rw [hu]; simp; exact isExpired_fresh now)
  have hhist : ((addMessage now
      ((addMessage now (validateSession now kv sid).1 sid "user" query uid uts).1)
      sid "assistant" noDocsResponse aid ats).1).store (.history sid) =
      some (.vlist (histListOf kv sid ++
        [⟨uid, "user", query, uts⟩, ⟨aid, "assistant", noDocsResponse, ats⟩])) := by
    rw [ha]
    simp [hu, hvstore, histListOf, listOf, List.append_assoc]
  refine ⟨?_, ?_, ?_, ?_, ?_, ?_, ?_⟩
  · rw [processQuery_canned now ⟨kv, vs⟩ sid query qe gen uid uts aid ats hv
      (by rw [hsearch]; rfl)]
  · rw [processQuery_canned now ⟨kv, vs⟩ sid query qe gen uid uts aid ats hv
      (by rw [hsearch]; rfl)]
  · rw [processQuery_canned now ⟨kv, vs⟩ sid query qe gen uid uts aid ats hv
      (by rw [hsearch]; rfl)]
    simp only [hkvh]
    exact hhist
  · rw [processQueryStream_canned now ⟨kv, vs⟩ sid query qe outcome uid uts aid ats hv
      (by rw [hsearch]; rfl)]
  · rw [processQueryStream_canned now ⟨kv, vs⟩ sid query qe outcome uid uts aid ats hv
      (by rw [hsearch]; rfl)]
  · rw [processQueryStream_canned now ⟨kv, vs⟩ sid query qe outcome uid uts aid ats hv
      (by rw [hsearch]; rfl)]
  · rw [processQueryStream_canned now ⟨kv, vs⟩ sid query qe outcome uid uts aid ats hv
      (by rw [hsearch]; rfl)]
    simp only [hkvh]
    exact hhist

/-- Session-only store used by the C5 witness. -/
def c5KV : KV :=
  ⟨fun k => if k = .session "s" then some (.vsess ⟨"s", "t0", 0⟩) else none, fun _ => none⟩

/-- The empty vector store used by the C5 witness. -/
def c5VS : VectorStore := ⟨[], [], []⟩

/-- C5 (witness): concrete run against an empty corpus. -/
theorem c5_witness :
    (processQuery 0 ⟨c5KV, c5VS⟩ "s" "q" [] (.ok "g") "u1" "t1" "a1" "t2").result =
      .ok ⟨noDocsResponse, []⟩ ∧
    (processQuery 0 ⟨c5KV, c5VS⟩ "s" "q" [] (.ok "g") "u1" "t1" "a1" "t2").events = [] ∧
    (processQuery 0 ⟨c5KV, c5VS⟩ "s" "q" [] (.ok "g") "u1" "t1" "a1" "t2").world.kv.store
        (.history "s") =
      some (.vlist (histListOf c5KV "s" ++
        [⟨"u1", "user", "q", "t1"⟩, ⟨"a1", "assistant", noDocsResponse, "t2"⟩])) ∧
    (processQueryStream 0 ⟨c5KV, c5VS⟩ "s" "q" [] (.ok ["x"]) "u1" "t1" "a1" "t2").result =
      .ok ⟨noDocsResponse, []⟩ ∧
    (processQueryStream 0 ⟨c5KV, c5VS⟩ "s" "q" [] (.ok ["x"]) "u1" "t1" "a1" "t2").events = [] ∧
    (processQueryStream 0 ⟨c5KV, c5VS⟩ "s" "q" [] (.ok ["x"]) "u1" "t1" "a1" "t2").emitted =
      [noDocsResponse] ∧
    (processQueryStream 0 ⟨c5KV, c5VS⟩ "s" "q" [] (.ok ["x"]) "u1" "t1" "a1" "t2").world.kv.store
        (.history "s") =
      some (.vlist (histListOf c5KV "s" ++
        [⟨"u1", "user", "q", "t1"⟩, ⟨"a1", "assistant", noDocsResponse, "t2"⟩])) :=
  c5_empty_corpus 0 c5KV c5VS "s" "q" [] (.ok "g") (.ok ["x"]) "u1" "t1" "a1" "t2"
    ⟨"s", "t0", 0⟩ rfl rfl rfl rfl

/-! ## Claim C1 — generation failure handling -/

theorem search_length_ne_zero (vs : VectorStore) (qe : List ℚ)
    (hne : vs.documents ≠ []) (hlen : vs.embeddings.length = vs.documents.length) :
    (search vs qe ragTopK).length ≠ 0 := by
  have h0 : vs.documents.length ≠ 0 := fun h => hne (List.length_eq_zero.mp h)
  simp only [search, List.length_map, searchRanked, if_neg h0, List.length_take,
    length_sortByScoreDesc]
  have hss : (simScores vs qe).length = vs.embeddings.length := by simp [simScores]
  rw [hss, hlen, ragTopK]
  omega

/-- Session store and one-document corpus for the C1 counterexample and
witness. -/
def c1KV : KV :=
  ⟨fun k => if k = .session "s" then some (.vsess ⟨"s", "t0", 0⟩) else none, fun _ => none⟩

/-- One-document vector store for the C1 counterexample and witness. -/
def c1VS : VectorStore := ⟨["news doc"], [[1]], ["m"]⟩

/-- C1 (counterexample): the claim says that when generation fails (e.g.
upstream rate limiting), `processQuery` continues with a fallback answer,
persists the assistant turn, and returns `{answer, sources}` normally.
At this concrete input (valid session, one-document corpus, generation
failing with HTTP 429) `processQuery` instead propagates the error — the
pipeline aborts — and the history holds only the user turn, with no
assistant turn persisted. -/
theorem c1_counterexample :
    (processQuery 0 ⟨c1KV, c1VS⟩ "s" "q" [1] (.err 429) "u1" "t1" "a1" "t2").result =
      .error "Failed to generate response from Gemini API" ∧
    (processQuery 0 ⟨c1KV, c1VS⟩ "s" "q" [1] (.err 429) "u1" "t1" "a1" "t2").world.kv.store
        (.history "s") = some (.vlist [⟨"u1", "user", "q", "t1"⟩]) := by
  constructor <;> rfl

/-- C1 (amended): only `processQueryStream`, and only for a rate-limit
failure (HTTP status 429), recovers with the component-provided fallback
answer: the fallback (a context-derived summary) is sent to the sink,
persisted as the assistant turn, and returned as a normal
`{answer, sources}` result. In `processQuery` every generation failure —
including 429 — propagates as an error after the user turn was persisted
(no assistant turn, no result), and in `processQueryStream` every
non-429 failure propagates likewise. -/
theorem c1_generation_failure_amended (now : Nat) (kv : KV) (vs : VectorStore)
    (sid query : String) (qe : List ℚ) (status : Nat)
    (uid uts aid ats : String) (d : SessionData)
    (hs : kv.store (.session sid) = some (.vsess d))
    (he : isExpired now (kv.ttls (.session sid)) = false)
    (hth : isExpired now (kv.ttls (.history sid)) = false)
    (hne : vs.documents ≠ [])
    (hlen : vs.embeddings.length = vs.documents.length) :
    (processQuery now ⟨kv, vs⟩ sid query qe (.err status) uid uts aid ats).result =
      .error "Failed to generate response from Gemini API" ∧
    (processQuery now ⟨kv, vs⟩ sid query qe (.err status) uid uts aid ats).world.kv.store
        (.history sid) =
      some (.vlist (histListOf kv sid ++ [⟨uid, "user", query, uts⟩])) ∧
    (processQueryStream now ⟨kv, vs⟩ sid query qe (.err 429) uid uts aid ats).result =
      .ok ⟨rateLimitFallback (search vs qe ragTopK), mkSources (search vs qe ragTopK)⟩ ∧
    (processQueryStream now ⟨kv, vs⟩ sid query qe (.err 429) uid uts aid ats).emitted =
      [rateLimitFallback (search vs qe ragTopK)] ∧
    (processQueryStream now ⟨kv, vs⟩ sid query qe (.err 429) uid uts aid ats).world.kv.store
        (.history sid) =
      some (.vlist (histListOf kv sid ++ [⟨uid, "user", query, uts⟩,
        ⟨aid, "assistant", rateLimitFallback (search vs qe ragTopK), ats⟩])) ∧
    (status ≠ 429 →
      (processQueryStream now ⟨kv, vs⟩ sid query qe (.err status) uid uts aid ats).result =
        .error "Failed to stream response from Gemini API") := by
  have hsl : (search vs qe ragTopK).length ≠ 0 := search_length_ne_zero vs qe hne hlen
  have hv : (validateSession now kv sid).2 = true := by
    rw [validateSession_valid now kv sid d hs he]
  have hkvh : (getHistory now (validateSession now kv sid).1 sid 10).1 =
      (validateSession now kv sid).1 :=
    getHistory_state_valid now kv sid d hs he hth
  have hvstore : (validateSession now kv sid).1.store = kv.store := by
    rw [validateSession_valid now kv sid d hs he]
    split <;> rfl
  have hvttl : (validateSession now kv sid).1.ttls (.session sid) =
      some (now + sessionTTL * 1000) := by
    rw [validateSession_valid now kv sid d hs he]
    split <;> simp
  have hu := addMessage_run now (validateSession now kv sid).1 sid "user" query uid uts d
    (by rw [hvstore, hs]) (by rw [hvttl]; exact isExpired_fresh now)
  have ha := addMessage_run now
    ((addMessage now (validateSession now kv sid).1 sid "user" query uid uts).1)
    sid "assistant" (rateLimitFallback (search vs qe ragTopK)) aid ats
    { d with messageCount := d.messageCount + 1 }
    (by rw [hu]; simp) (by rw [hu]; simp; exact isExpired_fresh now)
  refine ⟨?_, ?_, ?_, ?_, ?_, ?_⟩
  · rw [processQuery_gen now ⟨kv, vs⟩ sid query qe (.err status) uid uts aid ats hv hsl]
    rfl
  · rw [processQuery_gen now ⟨kv, vs⟩ sid query qe (.err status) uid uts aid ats hv hsl]
    simp only [generateResponse]
    simp only [hkvh, hu, histListOf, hvstore]
    simp
  · rw [processQueryStream_gen now ⟨kv, vs⟩ sid query qe (.err 429) uid uts aid ats hv hsl]
    simp [streamResponse_429]
  · rw [processQueryStream_gen now ⟨kv, vs⟩ sid query qe (.err 429) uid uts aid ats hv hsl]
    simp [streamResponse_429]
  · rw [processQueryStream_gen now ⟨kv, vs⟩ sid query qe (.err 429) uid uts aid ats hv hsl]
    simp only [streamResponse_429, hkvh]
    rw [ha]
    simp [hu, hvstore, histListOf, listOf, List.append_assoc]
  · intro hns
    rw [processQueryStream_gen now ⟨kv, vs⟩ sid query qe (.err status) uid uts aid ats hv hsl]
    simp [streamResponse_err _ _ hns]

/-- C1 (witness for the amended theorem): the concrete one-document world,
with a non-429 status 500 for the failure conjuncts. -/
theorem c1_witness :
    (processQuery 0 ⟨c1KV, c1VS⟩ "s" "q" [1] (.err 500) "u1" "t1" "a1" "t2").result =
      .error "Failed to generate response from Gemini API" ∧
    (processQuery 0 ⟨c1KV, c1VS⟩ "s" "q" [1] (.err 500) "u1" "t1" "a1" "t2").world.kv.store
        (.history "s") =
      some (.vlist (histListOf c1KV "s" ++ [⟨"u1", "user", "q", "t1"⟩])) ∧
    (processQueryStream 0 ⟨c1KV, c1VS⟩ "s" "q" [1] (.err 429) "u1" "t1" "a1" "t2").result =
      .ok ⟨rateLimitFallback (search c1VS [1] ragTopK), mkSources (search c1VS [1] ragTopK)⟩ ∧
    (processQueryStream 0 ⟨c1KV, c1VS⟩ "s" "q" [1] (.err 429) "u1" "t1" "a1" "t2").emitted =
      [rateLimitFallback (search c1VS [1] ragTopK)] ∧
    (processQueryStream 0 ⟨c1KV, c1VS⟩ "s" "q" [1] (.err 429) "u1" "t1" "a1" "t2").world.kv.store
        (.history "s") =
      some (.vlist (histListOf c1KV "s" ++ [⟨"u1", "user", "q", "t1"⟩,
        ⟨"a1", "assistant", rateLimitFallback (search c1VS [1] ragTopK), "t2"⟩])) ∧
    ((500 : Nat) ≠ 429 →
      (processQueryStream 0 ⟨c1KV, c1VS⟩ "s" "q" [1] (.err 500) "u1" "t1" "a1" "t2").result =
        .error "Failed to stream response from Gemini API") :=
  c1_generation_failure_amended 0 c1KV c1VS "s" "q" [1] 500 "u1" "t1" "a1" "t2"
    ⟨"s", "t0", 0⟩ rfl rfl rfl (by simp [c1VS]) rfl

/-- C6 (witness): a concrete successful run (empty corpus, canned answer)
of the streaming pipeline. -/
theorem c6_witness :
    String.join (processQueryStream 0 ⟨c5KV, c5VS⟩ "s" "q" [] (.ok ["x"])
        "u1" "t1" "a1" "t2").emitted =
      (⟨noDocsResponse, []⟩ : QueryResult).answer ∧
    (StreamOutcome.ok ["x"] = StreamOutcome.ok ["x"] →
      search c5VS [] ragTopK ≠ [] →
      (processQueryStream 0 ⟨c5KV, c5VS⟩ "s" "q" [] (.ok ["x"])
        "u1" "t1" "a1" "t2").emitted = ["x"]) :=
  c6_stream_concat 0 ⟨c5KV, c5VS⟩ "s" "q" [] (.ok ["x"]) "u1" "t1" "a1" "t2"
    ⟨noDocsResponse, []⟩ ["x"] rfl

end Voosh
